import Mathlib

/-!
Verification of the ground-detection, transition-tracking, flight and melee
logic of the dragon behavior-pack scripts.

The JavaScript sources are shallowly embedded as Lean functions:
pure computations become Lean functions, the per-actor mutable maps become
explicit state arguments that each step function threads through, and
host calls that may throw are modelled with `Except Unit`.
-/

namespace DragonPack

/-! ### Blocks and the solidity test (`isSolidBlock`, part_000 lines 31-104) -/

/-- A world block, identified by its type id string. -/
structure Blk where
  typeId : String
deriving DecidableEq

/-- The fixed list of non-solid/passable block type ids
(`nonSolidBlocks` in `isSolidBlock`, part_000 lines 35-95; the copy in
DragonBACKUP.js lines 659-719 is byte-identical). -/
def nonSolidBlocks : List String := [
  "minecraft:air",
  "minecraft:water",
  "minecraft:flowing_water",
  "minecraft:lava",
  "minecraft:flowing_lava",
  "minecraft:barrier",
  "minecraft:light_block",
  "minecraft:light_block_0",
  "minecraft:light_block_1",
  "minecraft:light_block_2",
  "minecraft:light_block_3",
  "minecraft:light_block_4",
  "minecraft:light_block_5",
  "minecraft:light_block_6",
  "minecraft:light_block_7",
  "minecraft:light_block_8",
  "minecraft:light_block_9",
  "minecraft:light_block_10",
  "minecraft:light_block_11",
  "minecraft:light_block_12",
  "minecraft:light_block_13",
  "minecraft:light_block_14",
  "minecraft:light_block_15",
  "minecraft:tall_grass",
  "minecraft:short_grass",
  "minecraft:fern",
  "minecraft:large_fern",
  "minecraft:seagrass",
  "minecraft:kelp",
  "minecraft:torch",
  "minecraft:soul_torch",
  "minecraft:redstone_torch",
  "minecraft:fire",
  "minecraft:soul_fire",
  "minecraft:snow",
  "minecraft:rail",
  "minecraft:golden_rail",
  "minecraft:detector_rail",
  "minecraft:activator_rail",
  "minecraft:powered_rail",
  "minecraft:lever",
  "minecraft:redstone_wire",
  "minecraft:tripwire",
  "minecraft:tripwire_hook",
  "minecraft:stone_pressure_plate",
  "minecraft:wooden_pressure_plate",
  "minecraft:light_weighted_pressure_plate",
  "minecraft:heavy_weighted_pressure_plate",
  "minecraft:crimson_pressure_plate",
  "minecraft:warped_pressure_plate",
  "minecraft:acacia_pressure_plate",
  "minecraft:birch_pressure_plate",
  "minecraft:dark_oak_pressure_plate",
  "minecraft:jungle_pressure_plate",
  "minecraft:oak_pressure_plate",
  "minecraft:spruce_pressure_plate",
  "minecraft:mangrove_pressure_plate",
  "minecraft:bamboo_pressure_plate",
  "minecraft:cherry_pressure_plate"]

/-- Embeds `isSolidBlock(block)` (part_000 lines 31-104): a missing block is
not solid; otherwise a block is solid exactly when its type id is not in the
`nonSolidBlocks` list. -/
def isSolidBlock : Option Blk → Bool
  | none => false
  | some b => !(nonSolidBlocks.contains b.typeId)

/-! ### Ground probing (`checkSolidBlockBelow`, part_000 lines 112-162)

`dimension.getBlock(loc)` may return a block, return undefined, or throw
(out-of-bounds); the three outcomes are modelled by
`Except Unit (Option Blk)`. -/

/-- A dimension's block lookup at an integer coordinate; `.error` models a
thrown lookup, `.ok none` models an undefined/missing block. -/
def BlockLookup : Type := ℤ → ℤ → ℤ → Except Unit (Option Blk)

/-- Outcome of one probed offset in the scan loop: the body of the inner
`try` at part_000 lines 126-143, which treats a thrown lookup as not-found
for that offset (`continue`). -/
def solidProbe (getBlock : BlockLookup) (x y z : ℤ) : Bool :=
  match getBlock x y z with
  | .ok ob => ob.isSome && isSolidBlock ob
  | .error _ => false

/-- Result of `checkSolidBlockBelow`: `distance = none` models the JS
`distance: Infinity` of the not-found result. -/
structure ScanResult where
  hasSolidBlockBelow : Bool
  distance : Option ℕ
deriving DecidableEq

/-- The scan loop of `checkSolidBlockBelow` (part_000 lines 119-144),
started at offset `d` with `k` offsets left to probe: the JS loop
`for (let y = 0; y >= -maxDistance; y--)` probes offsets `0..maxDistance`
and returns at the first solid hit with `distance = |y|`. -/
def scanFrom (getBlock : BlockLookup) (x ytop z : ℤ) (d : ℕ) : ℕ → ScanResult
  | 0 => ⟨false, none⟩
  | k + 1 =>
    if solidProbe getBlock x (ytop - d) z then ⟨true, some d⟩
    else scanFrom getBlock x ytop z (d + 1) k

/-- Solidity of the block probed at depth `d` below the column top `ytop`:
offset `-d` of the scan loop. -/
def solidAtDepth (getBlock : BlockLookup) (x ytop z : ℤ) (d : ℕ) : Bool :=
  solidProbe getBlock x (ytop - d) z

/-- A (possibly fractional) actor position. -/
structure Pos3 where
  x : ℚ
  y : ℚ
  z : ℚ

/-- Embeds `checkSolidBlockBelow(player, maxDistance)` from a known position:
floors each coordinate of the actor position and probes integer offsets
`0 .. maxDistance` below the feet, in order. -/
def checkSolidBlockBelowCore (getBlock : BlockLookup) (pos : Pos3) (maxDistance : ℕ) :
    ScanResult :=
  scanFrom getBlock ⌊pos.x⌋ ⌊pos.y⌋ ⌊pos.z⌋ 0 (maxDistance + 1)

/-- An actor as seen by the detection scripts: the property reads
`player.name` and `player.location` may throw (`Except Unit`), and the
actor's dimension is available as a block lookup. -/
structure PlayerM where
  name : Except Unit String
  location : Except Unit Pos3
  getBlock : BlockLookup

/-- Embeds `checkSolidBlockBelow(player, maxDistance)` (part_000
lines 112-162) including its outer `try`: if reading the actor position
throws, the catch at lines 153-161 returns the same not-found result. -/
def checkSolidBlockBelow (pl : PlayerM) (maxDistance : ℕ) : ScanResult :=
  match pl.location with
  | .error _ => ⟨false, none⟩
  | .ok pos => checkSolidBlockBelowCore pl.getBlock pos maxDistance

/-! ### Transition tracking (`detectSolidBlockTransition`, part_000 lines 179-250)

The module-level `playerStates` map (keyed by `player.name`) becomes an
explicit state argument of type `String → Option Bool`; the dragon variant
in DragonBACKUP.js lines 920-991 is the same code keyed by `entity.id`. -/

/-- The `playerStates` map: stored `hadSolidBlockBefore` flag per actor key. -/
def GroundStates : Type := String → Option Bool

/-- Result record of `detectSolidBlockTransition`; `blockData = none` models
the `blockData: null` of the error result. -/
structure TransResult where
  transitionType : String
  hasSolidBlockNow : Bool
  hadSolidBlockBefore : Bool
  blockData : Option ScanResult
  detectionRange : ℕ
  isBeforeCondition : Bool
  isAfterCondition : Bool
  isStable : Bool
deriving DecidableEq

/-- The object returned by the catch block of `detectSolidBlockTransition`
(part_000 lines 238-248). -/
def errorTransResult : TransResult :=
  ⟨"error", false, false, none, 0, false, false, false⟩

/-- Probe depth used in the was-grounded branch (part_000 line 194). -/
def takeoffDetectionRange : ℕ := 2

/-- Probe depth used in the was-airborne branch (part_000 line 199). -/
def landingDetectionRange : ℕ := 2

/-- Embeds `detectSolidBlockTransition(player)` (part_000 lines 179-250).
Reads `player.name` then `player.location` (either may throw, reaching the
catch block before any state write), selects the probe depth by the stored
flag, classifies the edge, and overwrites the stored flag with the current
probe result. Returns the updated state map together with the result. -/
def detectSolidBlockTransition (states : GroundStates) (pl : PlayerM) :
    GroundStates × TransResult :=
  match pl.name with
  | .error _ => (states, errorTransResult)
  | .ok nm =>
    match pl.location with
    | .error _ => (states, errorTransResult)
    | .ok _ =>
      let hadSolidBlockBefore := (states nm).getD false
      let detectionRange :=
        if hadSolidBlockBefore then takeoffDetectionRange else landingDetectionRange
      let currentBlockData := checkSolidBlockBelow pl detectionRange
      let hasSolidBlockNow := currentBlockData.hasSolidBlockBelow
      let transitionType :=
        if !hadSolidBlockBefore && hasSolidBlockNow then "before"
        else if hadSolidBlockBefore && !hasSolidBlockNow then "after"
        else "none"
      (fun n => if n = nm then some hasSolidBlockNow else states n,
       ⟨transitionType, hasSolidBlockNow, hadSolidBlockBefore,
        some currentBlockData, detectionRange,
        transitionType == "before", transitionType == "after",
        transitionType == "none"⟩)

/-- Concrete lookup for witnesses: every coordinate holds a stone block. -/
def stoneLookup : BlockLookup := fun _ _ _ => .ok (some ⟨"minecraft:stone"⟩)

/-- Concrete actor for witnesses: readable name and position over stone. -/
def testPlayer : PlayerM := ⟨.ok "rider", .ok ⟨0, 0, 0⟩, stoneLookup⟩

/-- Concrete actor for witnesses whose `name` read throws. -/
def badNamePlayer : PlayerM := ⟨.error (), .ok ⟨0, 0, 0⟩, stoneLookup⟩

/-- Concrete empty state map for witnesses. -/
def emptyStates : GroundStates := fun _ => none

/-! ### Flight state machine (`Flight.js`, `DragonFlightSystem`)

`processTamedFlight` (lines 121-148) with `tryEndFlight` (116-120),
`startFlying` (352-367), `endFlying` (167-183) and the stamina/hover
fragment of `continueFlying` (184-262).  Velocity, FOV, music, effects
and the other host-facing writes of these methods do not feed back into
the modelled counters and are omitted; the rider lookup and the geometric
hover test `transformedMovement.length() < 0.1` are abstracted into the
per-tick input record. -/

/-- Persisted stamina: a number, or the `"infinite"` sentinel string. -/
inductive StaminaV where
  | num (q : ℚ)
  | infinite
deriving DecidableEq

/-- Tuning parameters read from `this.comp`: `maxStamina = none` models a
milestone whose `maxStamina` is not a number (`typeof ... == "number"`
fails); the `StaminaExhaustion` per-tick deltas are signed rationals. -/
structure FlightParams where
  maxStamina : Option ℚ
  groundedTick : ℚ
  flightTick : ℚ
  boostingTick : ℚ
  hoveringTick : ℚ

/-- The mutable per-dragon fields of `DragonFlightSystem` that the flight
state machine reads and writes (constructor, Flight.js lines 403-419). -/
structure FlightState where
  flyingTime : ℕ
  hoveringTime : ℕ
  onGroundTime : ℕ
  jumpingTime : ℕ
  isBoosting : Bool
  stamina : StaminaV

/-- Host observations consumed by one `processTamedFlight` tick:
whether `this.comp.rider` is set and valid, whether that rider's `riding`
component points back at this dragon, the rider's jump button, the
dragon's `isOnGround`, and whether the transformed steering input of
`continueFlying` has magnitude below 0.1 (the hover test, line 242). -/
structure FlightInput where
  riderPresentValid : Bool
  isRiding : Bool
  jumpPressed : Bool
  isOnGround : Bool
  moveIsHover : Bool

/-- Observable flight events: `started` marks a `startFlying()` call,
`ended` marks an `endFlying()` call. -/
inductive FlightEvent where
  | started
  | ended
deriving DecidableEq

/-- `MathUtil.clamp(value, min, max)`. -/
def clampQ (v lo hi : ℚ) : ℚ := min (max v lo) hi

/-- Numeric addition on stamina (`this.stamina + delta`).  Under the
invariants proved below the `infinite` case is unreachable whenever this
is applied (the JS would string-concatenate there). -/
def addStamina : StaminaV → ℚ → StaminaV
  | .num q, d => .num (q + d)
  | .infinite, _ => .infinite

/-- `MathUtil.clamp(this.stamina, 0, maxStamina)` on a stamina value. -/
def clampStamina : StaminaV → ℚ → StaminaV
  | .num q, m => .num (clampQ q 0 m)
  | .infinite, _ => .infinite

/-- Grounded stamina regeneration, `processTamedFlight` lines 134-137:
only when not flying and `maxStamina` is a number. -/
def groundedRegen (P : FlightParams) (s : FlightState) : FlightState :=
  if s.flyingTime = 0 then
    match P.maxStamina with
    | some m =>
      { s with stamina := clampStamina (addStamina s.stamina P.groundedTick) m }
    | none => s
  else s

/-- `endFlying()` (Flight.js lines 167-183): zeroes the flying-tick
counter; the property/effect/permission writes are host-facing only. -/
def endFlying (s : FlightState) : FlightState :=
  { s with flyingTime := 0 }

/-- `startFlying()` (Flight.js lines 352-367): sets the flying-tick
counter to 1; knockback, effects and velocity reset are host-facing. -/
def startFlying (s : FlightState) : FlightState :=
  { s with flyingTime := 1 }

/-- `tryEndFlight()` (Flight.js lines 116-120): ends flight only if the
flying-tick counter is nonzero. -/
def tryEndFlightStep (s : FlightState) : FlightState × Option FlightEvent :=
  if s.flyingTime ≠ 0 then (endFlying s, some .ended) else (s, none)

/-- The state-relevant fragment of `continueFlying()` (Flight.js
lines 184-262): `hasStamina` and `isBoosting` are computed first
(lines 185-186) from the pre-drain stamina and pre-update hover counter,
the stamina drain block (lines 231-239) then runs before the hover
update (lines 242-249). -/
def continueFlying (P : FlightParams) (s : FlightState) (i : FlightInput) :
    FlightState :=
  let hasStamina :=
    match s.stamina with
    | .infinite => true
    | .num q => decide (0 < q)
  let isBoosting := s.jumpingTime ≠ 0 && hasStamina && s.hoveringTime = 0
  let stamina1 :=
    match P.maxStamina with
    | some m =>
      let st0 := if s.stamina = .infinite then .num m else s.stamina
      let st1 := if s.hoveringTime = 0 then addStamina st0 P.flightTick else st0
      let st2 := if isBoosting then addStamina st1 P.boostingTick else st1
      let st3 := if s.hoveringTime ≠ 0 then addStamina st2 P.hoveringTick else st2
      clampStamina st3 m
    | none => .infinite
  let hoveringTime1 := if i.moveIsHover then s.hoveringTime + 1 else 0
  { s with stamina := stamina1, hoveringTime := hoveringTime1,
           isBoosting := isBoosting }

/-- Embeds one `processTamedFlight()` tick (Flight.js lines 121-148):
grounded stamina regeneration, the two early-return rider checks (each
routed through `tryEndFlight`), the jump/ground counter updates, the
end/start/continue selection, and the trailing flying-tick increment
(line 147, skipped by the early returns exactly as in the JS). -/
def processTamedFlight (P : FlightParams) (s : FlightState) (i : FlightInput) :
    FlightState × Option FlightEvent :=
  let s0 := groundedRegen P s
  if !i.riderPresentValid then tryEndFlightStep s0
  else if !i.isRiding then tryEndFlightStep s0
  else
    let s1 := { s0 with
      jumpingTime := if i.jumpPressed then s0.jumpingTime + 1 else 0,
      onGroundTime := if i.isOnGround then s0.onGroundTime + 1 else 0,
      isBoosting := false }
    let step :=
      if s1.flyingTime ≠ 0 ∧ s1.onGroundTime > 2 ∧ s1.flyingTime > 10 then
        (endFlying s1, some FlightEvent.ended)
      else if s1.flyingTime = 0 ∧ s1.jumpingTime ≠ 0 then
        (startFlying s1, some FlightEvent.started)
      else if s1.flyingTime ≠ 0 then
        (continueFlying P s1 i, none)
      else (s1, none)
    ({ step.1 with
        flyingTime := if step.1.flyingTime ≠ 0 then step.1.flyingTime + 1 else 0 },
     step.2)

/-- Runs a sequence of `processTamedFlight` ticks, keeping the state. -/
def runFlight (P : FlightParams) (s : FlightState) (l : List FlightInput) :
    FlightState :=
  l.foldl (fun st i => (processTamedFlight P st i).1) s

/-- The stamina invariant of the spec: in `[0, maxStamina]` when
`maxStamina` is a number, the `"infinite"` sentinel otherwise. -/
def staminaInv (maxS : Option ℚ) (st : StaminaV) : Prop :=
  match maxS with
  | some m => ∃ q, st = .num q ∧ 0 ≤ q ∧ q ≤ m
  | none => st = .infinite

/-! ### Melee attack cone (`dragonMeleeAttack`, DragonBACKUP.js lines 284-494)

The geometry is idealised over the reals.  The candidate list produced by
`dimension.getEntities({maxDistance: attackRange + 2})` is taken as an
input; `entity.applyDamage` may return true, return false, or throw, which
the per-candidate `try` at lines 419-442 catches. -/

/-- A 3-component vector / world position. -/
structure V3R where
  x : ℝ
  y : ℝ
  z : ℝ

/-- Outcome of an `entity.applyDamage` call on a given candidate. -/
inductive DamageOutcome where
  | applied
  | refused
  | thrown
deriving DecidableEq

/-- A candidate entity as read by the melee scan loop. -/
structure EntityC where
  id : ℕ
  typeId : String
  isValid : Bool
  location : V3R
  damage : DamageOutcome

/-- The attacking dragon: validity flag, identity, position and view
direction. -/
structure AttackerC where
  isValid : Bool
  id : ℕ
  location : V3R
  viewDirection : V3R

/-- The object returned by `dragonMeleeAttack`. -/
structure MeleeResult where
  success : Bool
  hitCount : ℕ
  hitEntities : List EntityC

/-- Euclidean distance, `Math.sqrt(dx*dx + dy*dy + dz*dz)` with
`toTarget = target - dragonLocation` (lines 368-379). -/
noncomputable def dist3 (a b : V3R) : ℝ :=
  Real.sqrt ((b.x - a.x) ^ 2 + (b.y - a.y) ^ 2 + (b.z - a.z) ^ 2)

/-- The horizontal view/target dot product of lines 396-407:
`viewDirection.x * normalizedTarget.x + viewDirection.z * normalizedTarget.z`
where `normalizedTarget = toTarget / distance`. -/
noncomputable def meleeDot (dragon : AttackerC) (e : EntityC) : ℝ :=
  dragon.viewDirection.x *
    ((e.location.x - dragon.location.x) / dist3 dragon.location e.location) +
  dragon.viewDirection.z *
    ((e.location.z - dragon.location.z) / dist3 dragon.location e.location)

open Classical in
/-- The candidate loop of `dragonMeleeAttack` (lines 333-447): each `continue`
branch is an `if` that skips to the rest of the list, and a candidate enters
the hit list only when it passes every filter and `applyDamage` returns true
(a thrown `applyDamage` is caught at line 440 and the loop continues). -/
noncomputable def meleeScan (dragon : AttackerC) (rider : Option EntityC) :
    List EntityC → List EntityC
  | [] => []
  | e :: rest =>
    if e.isValid = false then meleeScan dragon rider rest
    else if e.id = dragon.id then meleeScan dragon rider rest
    else if rider.elim False (fun r => e.id = r.id) then meleeScan dragon rider rest
    else if e.typeId = "re_dra:dragon" ∨ e.typeId = "re_dra:dragon_baby" then
      meleeScan dragon rider rest
    else if dist3 dragon.location e.location > 5 then meleeScan dragon rider rest
    else if dist3 dragon.location e.location < 0.5 then meleeScan dragon rider rest
    else if meleeDot dragon e > 0.5 then
      match e.damage with
      | .applied => e :: meleeScan dragon rider rest
      | .refused => meleeScan dragon rider rest
      | .thrown => meleeScan dragon rider rest
    else meleeScan dragon rider rest

open Classical in
/-- The trace of candidates on which the loop invokes `entity.applyDamage`
(line 423): same filters as `meleeScan`, but a candidate is recorded for
every outcome of the call, including a throw. -/
noncomputable def meleeDamageCalls (dragon : AttackerC) (rider : Option EntityC) :
    List EntityC → List EntityC
  | [] => []
  | e :: rest =>
    if e.isValid = false then meleeDamageCalls dragon rider rest
    else if e.id = dragon.id then meleeDamageCalls dragon rider rest
    else if rider.elim False (fun r => e.id = r.id) then meleeDamageCalls dragon rider rest
    else if e.typeId = "re_dra:dragon" ∨ e.typeId = "re_dra:dragon_baby" then
      meleeDamageCalls dragon rider rest
    else if dist3 dragon.location e.location > 5 then meleeDamageCalls dragon rider rest
    else if dist3 dragon.location e.location < 0.5 then meleeDamageCalls dragon rider rest
    else if meleeDot dragon e > 0.5 then e :: meleeDamageCalls dragon rider rest
    else meleeDamageCalls dragon rider rest

/-- Embeds `dragonMeleeAttack(dragon, rider)` (DragonBACKUP.js
lines 284-494): a missing or invalid attacker short-circuits to
`{success: false, hitCount: 0, hitEntities: []}` (lines 289-296); otherwise
the scan runs and the call returns `success: true` with the hit list
(lines 475-479).  In the model the only fallible step inside the guarded
region is `applyDamage`, whose throw is caught per-candidate, so the
function is total: no exception reaches the caller. -/
noncomputable def dragonMeleeAttack (dragon : Option AttackerC)
    (rider : Option EntityC) (nearby : List EntityC) : MeleeResult :=
  match dragon with
  | none => ⟨false, 0, []⟩
  | some dr =>
    if dr.isValid = false then ⟨false, 0, []⟩
    else
      let hits := meleeScan dr rider nearby
      ⟨true, hits.length, hits⟩

/-- The `applyDamage` call trace of a `dragonMeleeAttack` invocation: empty
when the attacker is missing or invalid (the loop is never reached). -/
noncomputable def dragonMeleeAttackDamageCalls (dragon : Option AttackerC)
    (rider : Option EntityC) (nearby : List EntityC) : List EntityC :=
  match dragon with
  | none => []
  | some dr =>
    if dr.isValid = false then []
    else meleeDamageCalls dr rider nearby

/-- Concrete melee scenario attacker: valid, at the origin, facing +Z. -/
noncomputable def testDragon : AttackerC :=
  ⟨true, 1, ⟨0, 0, 0⟩, ⟨0, 0, 1⟩⟩

/-- Concrete melee scenario rider (entity id 2), placed at `p`. -/
noncomputable def testRider (p : V3R) : EntityC :=
  ⟨2, "minecraft:player", true, p, .applied⟩

/-- Concrete melee scenario target: a valid non-ally entity at `p` on which
`applyDamage` succeeds. -/
noncomputable def meleeTarget (p : V3R) : EntityC :=
  ⟨3, "minecraft:pig", true, p, .applied⟩

/-- Concrete melee scenario ally of dragon type `tid`, placed at `p`. -/
noncomputable def allyDragonAt (tid : String) (p : V3R) : EntityC :=
  ⟨4, tid, true, p, .applied⟩

/-! ### Yaw rotation tracking (`detectYawRotation`, DragonBACKUP.js
lines 818-909, with `calculateYawFromDirection` lines 806-810)

The per-dragon `rotationStates` entry becomes an explicit optional state
argument; angles are idealised over the reals. -/

/-- Embeds `calculateYawFromDirection(x, z)`:
`Math.atan2(x, z) * (180 / Math.PI)`, i.e. the argument of the complex
number with real part `z` and imaginary part `x`, converted to degrees.
`Complex.arg` has range `(-π, π]`, matching `Math.atan2` on inputs without
a signed negative zero. -/
noncomputable def calculateYawFromDirection (x z : ℝ) : ℝ :=
  Complex.arg ⟨z, x⟩ * (180 / Real.pi)

/-- Stored rotation state per dragon (`rotationStates` entry). -/
structure RotState where
  previousViewX : ℝ
  previousViewZ : ℝ

/-- Result record of `detectYawRotation`; `propLeftRight` is the value the
call writes to the actor's `re_dra:left_right` property (line 866). -/
structure RotResult where
  currentYaw : ℝ
  previousYaw : ℝ
  yawDifference : ℝ
  rotationDirection : String
  propLeftRight : String

open Classical in
/-- Embeds the happy path of `detectYawRotation(dragon)` (lines 818-894):
a missing state entry is created from the current view direction (so the
first observation has zero delta), the wrap-around adjustment at
lines 846-850 adds or subtracts 360 only on a strict overflow of ±180,
the classification thresholds are ±1.0 degrees, the current facing is
persisted, and the classification is written to `re_dra:left_right`. -/
noncomputable def detectYawRotation (st : Option RotState) (vx vz : ℝ) :
    RotState × RotResult :=
  let currentYaw := calculateYawFromDirection vx vz
  let st0 := st.getD ⟨vx, vz⟩
  let previousYaw := calculateYawFromDirection st0.previousViewX st0.previousViewZ
  let rawDiff := currentYaw - previousYaw
  let yawDiff :=
    if rawDiff > 180 then rawDiff - 360
    else if rawDiff < -180 then rawDiff + 360
    else rawDiff
  let rotationDirection :=
    if yawDiff > 1 then "left"
    else if yawDiff < -1 then "right"
    else "none"
  (⟨vx, vz⟩,
   ⟨currentYaw, previousYaw, yawDiff, rotationDirection, rotationDirection⟩)

/-- Modelled from the spec (claim C6's wording): normalisation of the yaw
delta into the half-open interval `(-180, 180]` by a single addition or
subtraction of 360 whenever the raw delta falls outside that interval. -/
noncomputable def specNormalizeDelta (d : ℝ) : ℝ :=
  if d > 180 then d - 360
  else if d ≤ -180 then d + 360
  else d

/-! ## Theorems -/

/-- Characterization of the scan loop started at offset `d` with `k` probes
remaining: it reports a hit at depth `e` exactly when `e` is the first
probed depth in the window that is solid. -/
theorem scanFrom_found_iff (g : BlockLookup) (x ytop z : ℤ) (k d e : ℕ) :
    scanFrom g x ytop z d k = ⟨true, some e⟩ ↔
      d ≤ e ∧ e < d + k ∧ solidAtDepth g x ytop z e = true ∧
        ∀ j, d ≤ j → j < e → solidAtDepth g x ytop z j = false := by
  induction k generalizing d with
  | zero =>
    constructor
    · intro h
      simp [scanFrom] at h
    · rintro ⟨h1, h2, -⟩
      omega
  | succ k ih =>
    by_cases h : solidAtDepth g x ytop z d = true
    · have h' : solidProbe g x (ytop - (d : ℤ)) z = true := h
      have hv : scanFrom g x ytop z d (k + 1) = ⟨true, some d⟩ := by
        simp [scanFrom, h']
      rw [hv]
      constructor
      · intro hs
        have hde : d = e := by simpa using congrArg ScanResult.distance hs
        subst hde
        exact ⟨le_refl d, by omega, h, fun j h1 h2 => absurd h1 (by omega)⟩
      · rintro ⟨h1, h2, h3, h4⟩
        have hde : d = e := by
          by_contra hne
          have hfalse := h4 d (le_refl d) (by omega)
          rw [h] at hfalse
          exact absurd hfalse (by decide)
        subst hde
        rfl
    · have hf : solidAtDepth g x ytop z d = false := by simpa using h
      have hf' : solidProbe g x (ytop - (d : ℤ)) z = false := hf
      have hv : scanFrom g x ytop z d (k + 1) = scanFrom g x ytop z (d + 1) k := by
        simp [scanFrom, hf']
      rw [hv, ih (d + 1)]
      constructor
      · rintro ⟨h1, h2, h3, h4⟩
        refine ⟨by omega, by omega, h3, fun j hj1 hj2 => ?_⟩
        rcases Nat.eq_or_lt_of_le hj1 with rfl | hlt
        · exact hf
        · exact h4 j (by omega) hj2
      · rintro ⟨h1, h2, h3, h4⟩
        have hne : d + 1 ≤ e := by
          by_contra hc
          have he : e = d := by omega
          subst he
          rw [h3] at hf
          exact absurd hf (by decide)
        exact ⟨hne, by omega, h3, fun j hj1 hj2 => h4 j (by omega) hj2⟩

/-- Characterization of the not-found result of the scan loop: every depth
in the probed window is non-solid (a thrown lookup counts as non-solid and
is skipped). -/
theorem scanFrom_notfound_iff (g : BlockLookup) (x ytop z : ℤ) (k d : ℕ) :
    scanFrom g x ytop z d k = ⟨false, none⟩ ↔
      ∀ j, d ≤ j → j < d + k → solidAtDepth g x ytop z j = false := by
  induction k generalizing d with
  | zero =>
    simp only [scanFrom]
    constructor
    · intro _ j h1 h2
      omega
    · intro _
      trivial
  | succ k ih =>
    by_cases h : solidAtDepth g x ytop z d = true
    · have h' : solidProbe g x (ytop - (d : ℤ)) z = true := h
      have hv : scanFrom g x ytop z d (k + 1) = ⟨true, some d⟩ := by
        simp [scanFrom, h']
      rw [hv]
      constructor
      · intro hs
        exact absurd hs (by simp)
      · intro hall
        have hfalse := hall d (le_refl d) (by omega)
        rw [h] at hfalse
        exact absurd hfalse (by decide)
    · have hf : solidAtDepth g x ytop z d = false := by simpa using h
      have hf' : solidProbe g x (ytop - (d : ℤ)) z = false := hf
      have hv : scanFrom g x ytop z d (k + 1) = scanFrom g x ytop z (d + 1) k := by
        simp [scanFrom, hf']
      rw [hv, ih (d + 1)]
      constructor
      · intro hall j h1 h2
        rcases Nat.eq_or_lt_of_le h1 with rfl | hlt
        · exact hf
        · exact hall j (by omega) (by omega)
      · intro hall j h1 h2
        exact hall j (by omega) (by omega)

/-- The scan loop returns either a hit with a finite depth or the
not-found/infinite result; no other shape occurs. -/
theorem scanFrom_result_cases (g : BlockLookup) (x ytop z : ℤ) (k d : ℕ) :
    (∃ e, scanFrom g x ytop z d k = ⟨true, some e⟩) ∨
      scanFrom g x ytop z d k = ⟨false, none⟩ := by
  induction k generalizing d with
  | zero =>
    right
    rfl
  | succ k ih =>
    by_cases h : solidProbe g x (ytop - (d : ℤ)) z = true
    · left
      exact ⟨d, by simp [scanFrom, h]⟩
    · have hf : solidProbe g x (ytop - (d : ℤ)) z = false := by simpa using h
      have hv : scanFrom g x ytop z d (k + 1) = scanFrom g x ytop z (d + 1) k := by
        simp [scanFrom, hf]
      rw [hv]
      exact ih (d + 1)

/-- C1: for every actor position, block-lookup function and
`maxDistance ≥ 0`, `checkSolidBlockBelow` probes offsets `0 .. -maxDistance`
in order and reports `hasSolidBlockBelow = true` with `distance = d` exactly
when the first probed depth whose lookup succeeds and yields a block outside
the fixed non-solid list is `d`; a thrown lookup counts as non-solid for its
offset and the scan continues; when no probed depth is solid the result is
`hasSolidBlockBelow = false` with the infinite distance. -/
theorem checkSolidBlockBelow_first_solid (g : BlockLookup) (pos : Pos3)
    (maxDistance : ℕ) :
    (∀ d, checkSolidBlockBelowCore g pos maxDistance = ⟨true, some d⟩ ↔
        d ≤ maxDistance ∧ solidAtDepth g ⌊pos.x⌋ ⌊pos.y⌋ ⌊pos.z⌋ d = true ∧
          ∀ j < d, solidAtDepth g ⌊pos.x⌋ ⌊pos.y⌋ ⌊pos.z⌋ j = false) ∧
    (checkSolidBlockBelowCore g pos maxDistance = ⟨false, none⟩ ↔
        ∀ j ≤ maxDistance, solidAtDepth g ⌊pos.x⌋ ⌊pos.y⌋ ⌊pos.z⌋ j = false) ∧
    ((∃ d, checkSolidBlockBelowCore g pos maxDistance = ⟨true, some d⟩) ∨
        checkSolidBlockBelowCore g pos maxDistance = ⟨false, none⟩) := by
  unfold checkSolidBlockBelowCore
  refine ⟨fun d => ?_, ?_, scanFrom_result_cases g ⌊pos.x⌋ ⌊pos.y⌋ ⌊pos.z⌋ _ 0⟩
  · rw [scanFrom_found_iff]
    constructor
    · rintro ⟨h1, h2, h3, h4⟩
      exact ⟨by omega, h3, fun j hj => h4 j (by omega) hj⟩
    · rintro ⟨h1, h2, h3⟩
      exact ⟨by omega, by omega, h2, fun j _ hj => h3 j hj⟩
  · rw [scanFrom_notfound_iff]
    constructor
    · intro hall j hj
      exact hall j (by omega) (by omega)
    · intro hall j _ hj
      exact hall j (by omega)

/-- C2: on the happy path, `detectSolidBlockTransition` classifies the edge
from the stored previous flag (defaulting to false), reports a landing edge
iff the flag was false and the probe finds ground, a takeoff edge iff the
flag was true and the probe finds no ground, overwrites the stored flag with
the current probe result, and therefore a second consecutive call on the
same actor with the same probe result reports no edge. -/
theorem detectSolidBlockTransition_edge_spec
    (states : GroundStates) (pl pl2 : PlayerM) (nm : String) (pos pos2 : Pos3)
    (hn : pl.name = .ok nm) (hp : pl.location = .ok pos)
    (hn2 : pl2.name = .ok nm) (hp2 : pl2.location = .ok pos2) :
    (detectSolidBlockTransition states pl).2.hadSolidBlockBefore =
        (states nm).getD false ∧
    (detectSolidBlockTransition states pl).2.isBeforeCondition =
        (!(states nm).getD false &&
          (detectSolidBlockTransition states pl).2.hasSolidBlockNow) ∧
    (detectSolidBlockTransition states pl).2.isAfterCondition =
        ((states nm).getD false &&
          !(detectSolidBlockTransition states pl).2.hasSolidBlockNow) ∧
    (detectSolidBlockTransition states pl).2.isStable =
        (!(detectSolidBlockTransition states pl).2.isBeforeCondition &&
          !(detectSolidBlockTransition states pl).2.isAfterCondition) ∧
    (detectSolidBlockTransition states pl).1 nm =
        some (detectSolidBlockTransition states pl).2.hasSolidBlockNow ∧
    ((detectSolidBlockTransition
          (detectSolidBlockTransition states pl).1 pl2).2.hasSolidBlockNow =
        (detectSolidBlockTransition states pl).2.hasSolidBlockNow →
      (detectSolidBlockTransition
          (detectSolidBlockTransition states pl).1 pl2).2.transitionType = "none") := by
  simp only [detectSolidBlockTransition, hn, hp, hn2, hp2, takeoffDetectionRange,
    landingDetectionRange, ite_self]
  cases hprev : (states nm).getD false <;>
    cases hnow : (checkSolidBlockBelow pl 2).hasSolidBlockBelow <;>
      cases hnow2 : (checkSolidBlockBelow pl2 2).hasSolidBlockBelow <;>
        simp_all

/-- C7: the probe depth passed to `checkSolidBlockBelow` is 2 in both the
was-grounded (takeoff) branch and the was-airborne (landing) branch of
`detectSolidBlockTransition`, so the two branches of the range selection
compute identical results and the detection is symmetric. -/
theorem detectSolidBlockTransition_range_symmetric
    (states : GroundStates) (pl : PlayerM) (nm : String) (pos : Pos3)
    (hn : pl.name = .ok nm) (hp : pl.location = .ok pos) :
    takeoffDetectionRange = 2 ∧ landingDetectionRange = 2 ∧
    (∀ b : Bool, (if b then checkSolidBlockBelow pl takeoffDetectionRange
        else checkSolidBlockBelow pl landingDetectionRange) =
      checkSolidBlockBelow pl 2) ∧
    (detectSolidBlockTransition states pl).2.detectionRange = 2 ∧
    (detectSolidBlockTransition states pl).2.blockData =
      some (checkSolidBlockBelow pl 2) := by
  refine ⟨rfl, rfl, fun b => by cases b <;> rfl, ?_, ?_⟩ <;>
    simp only [detectSolidBlockTransition, hn, hp, takeoffDetectionRange,
      landingDetectionRange, ite_self]

/-- C9: when a property read inside `detectSolidBlockTransition` throws, the
catch block returns the `"error"` result with `isBeforeCondition`,
`isAfterCondition` and `isStable` all false, and the stored per-actor
grounded state is left unchanged. -/
theorem detectSolidBlockTransition_error_path (states : GroundStates)
    (pl : PlayerM) (herr : pl.name = .error () ∨ pl.location = .error ()) :
    detectSolidBlockTransition states pl = (states, errorTransResult) ∧
    errorTransResult.transitionType = "error" ∧
    errorTransResult.isBeforeCondition = false ∧
    errorTransResult.isAfterCondition = false ∧
    errorTransResult.isStable = false := by
  refine ⟨?_, rfl, rfl, rfl, rfl⟩
  rcases herr with h | h
  · simp [detectSolidBlockTransition, h]
  · cases hname : pl.name with
    | error u =>
      simp [detectSolidBlockTransition, hname]
    | ok nm =>
      simp [detectSolidBlockTransition, hname, h]

/-- Witness for C2 at a concrete actor over stone. -/
theorem detectSolidBlockTransition_edge_spec_witness :
    (detectSolidBlockTransition emptyStates testPlayer).2.hadSolidBlockBefore =
      (emptyStates "rider").getD false :=
  (detectSolidBlockTransition_edge_spec emptyStates testPlayer testPlayer
    "rider" ⟨0, 0, 0⟩ ⟨0, 0, 0⟩ rfl rfl rfl rfl).1

/-- Witness for C7 at a concrete actor over stone. -/
theorem detectSolidBlockTransition_range_symmetric_witness :
    (detectSolidBlockTransition emptyStates testPlayer).2.detectionRange = 2 :=
  (detectSolidBlockTransition_range_symmetric emptyStates testPlayer
    "rider" ⟨0, 0, 0⟩ rfl rfl).2.2.2.1

/-- Witness for C9 at a concrete actor whose `name` read throws. -/
theorem detectSolidBlockTransition_error_path_witness :
    detectSolidBlockTransition emptyStates badNamePlayer =
      (emptyStates, errorTransResult) :=
  (detectSolidBlockTransition_error_path emptyStates badNamePlayer
    (Or.inl rfl)).1

/-- Grounded stamina regeneration leaves the flying-tick counter alone. -/
theorem groundedRegen_flyingTime (P : FlightParams) (s : FlightState) :
    (groundedRegen P s).flyingTime = s.flyingTime := by
  unfold groundedRegen
  split
  · cases P.maxStamina <;> rfl
  · rfl

/-- Grounded stamina regeneration leaves the jump counter alone. -/
theorem groundedRegen_jumpingTime (P : FlightParams) (s : FlightState) :
    (groundedRegen P s).jumpingTime = s.jumpingTime := by
  unfold groundedRegen
  split
  · cases P.maxStamina <;> rfl
  · rfl

/-- Grounded stamina regeneration leaves the ground counter alone. -/
theorem groundedRegen_onGroundTime (P : FlightParams) (s : FlightState) :
    (groundedRegen P s).onGroundTime = s.onGroundTime := by
  unfold groundedRegen
  split
  · cases P.maxStamina <;> rfl
  · rfl

/-- The early-return end path does not change stamina. -/
theorem tryEndFlightStep_stamina (s : FlightState) :
    (tryEndFlightStep s).1.stamina = s.stamina := by
  unfold tryEndFlightStep endFlying
  split <;> rfl

/-- The event of the early-return end path. -/
theorem tryEndFlightStep_event (s : FlightState) :
    (tryEndFlightStep s).2 =
      if s.flyingTime ≠ 0 then some FlightEvent.ended else none := by
  unfold tryEndFlightStep
  split <;> rfl

/-- Closed form of the event emitted by one `processTamedFlight` tick. -/
theorem processTamedFlight_event_eq (P : FlightParams) (s : FlightState)
    (i : FlightInput) :
    (processTamedFlight P s i).2 =
      if i.riderPresentValid = false ∨ i.isRiding = false then
        (if s.flyingTime ≠ 0 then some FlightEvent.ended else none)
      else if s.flyingTime ≠ 0 ∧
          (if i.isOnGround then s.onGroundTime + 1 else 0) > 2 ∧
          s.flyingTime > 10 then some FlightEvent.ended
      else if s.flyingTime = 0 ∧
          (if i.jumpPressed then s.jumpingTime + 1 else 0) ≠ 0 then
        some FlightEvent.started
      else none := by
  cases hr : i.riderPresentValid with
  | false =>
    simp [processTamedFlight, hr, tryEndFlightStep_event,
      groundedRegen_flyingTime]
  | true =>
    cases hrd : i.isRiding with
    | false =>
      simp [processTamedFlight, hr, hrd, tryEndFlightStep_event,
        groundedRegen_flyingTime]
    | true =>
      cases hj : i.jumpPressed <;> cases hg : i.isOnGround <;>
        simp only [processTamedFlight, hr, hrd, hj, hg, Bool.not_true,
          Bool.true_eq_false, Bool.false_eq_true, or_self, if_false, if_true,
          groundedRegen_flyingTime, groundedRegen_jumpingTime,
          groundedRegen_onGroundTime] <;>
        (repeat' split) <;> rfl

/-- C3: in `processTamedFlight`, a flight start event occurs exactly on a
tick with a valid mounted rider, flying-tick counter 0, and jump input held
for at least one consecutive tick; a flight end event occurs exactly when
the rider is missing/invalid or not riding (while flying), or when the
flying-tick counter exceeds 10 and the updated consecutive on-ground
counter exceeds 2 simultaneously. -/
theorem processTamedFlight_start_end_spec (P : FlightParams) (s : FlightState)
    (i : FlightInput) :
    ((processTamedFlight P s i).2 = some FlightEvent.started ↔
      i.riderPresentValid = true ∧ i.isRiding = true ∧ s.flyingTime = 0 ∧
        (if i.jumpPressed then s.jumpingTime + 1 else 0) ≥ 1) ∧
    ((processTamedFlight P s i).2 = some FlightEvent.ended ↔
      (s.flyingTime ≠ 0 ∧
        (i.riderPresentValid = false ∨ i.isRiding = false)) ∨
      (i.riderPresentValid = true ∧ i.isRiding = true ∧ s.flyingTime > 10 ∧
        (if i.isOnGround then s.onGroundTime + 1 else 0) > 2)) := by
  rw [processTamedFlight_event_eq]
  cases hr : i.riderPresentValid <;> cases hrd : i.isRiding <;>
    cases hj : i.jumpPressed <;> cases hg : i.isOnGround <;>
      simp only [hr, hrd, hj, hg, Bool.true_eq_false, Bool.false_eq_true,
        or_self, or_false, false_or, if_false, if_true] <;>
      split_ifs <;> simp <;> omega

/-- Clamping to `[0, m]` lands in `[0, m]` when `0 ≤ m`. -/
theorem clampQ_mem (v m : ℚ) (hm : 0 ≤ m) :
    0 ≤ clampQ v 0 m ∧ clampQ v 0 m ≤ m :=
  ⟨le_min (le_max_right v 0) hm, min_le_right _ _⟩

/-- A stamina value known to be numeric stays numeric under a conditional
`addStamina` update. -/
theorem ite_addStamina_num (c : Prop) [Decidable c] (st : StaminaV) (d : ℚ)
    (h : ∃ q, st = .num q) :
    ∃ q2, (if c then addStamina st d else st) = .num q2 := by
  obtain ⟨q, rfl⟩ := h
  split
  · exact ⟨q + d, rfl⟩
  · exact ⟨q, rfl⟩

/-- Clamping a numeric stamina value to `[0, m]` satisfies the invariant. -/
theorem clampStamina_inv (st : StaminaV) (m : ℚ) (hm0 : 0 ≤ m)
    (h : ∃ q, st = .num q) : staminaInv (some m) (clampStamina st m) := by
  obtain ⟨q, rfl⟩ := h
  exact ⟨clampQ q 0 m, rfl, (clampQ_mem q m hm0).1, (clampQ_mem q m hm0).2⟩

/-- Grounded stamina regeneration preserves the stamina invariant. -/
theorem groundedRegen_staminaInv (P : FlightParams) (s : FlightState)
    (hm : ∀ m, P.maxStamina = some m → 0 ≤ m)
    (hs : staminaInv P.maxStamina s.stamina) :
    staminaInv P.maxStamina (groundedRegen P s).stamina := by
  unfold groundedRegen
  split
  · cases hmax : P.maxStamina with
    | none =>
      rw [hmax] at hs
      exact hs
    | some m =>
      rw [hmax] at hs
      obtain ⟨q, hq, h0, h1⟩ := hs
      show staminaInv (some m)
        (clampStamina (addStamina s.stamina P.groundedTick) m)
      rw [hq]
      exact clampStamina_inv _ m (hm m hmax) ⟨q + P.groundedTick, rfl⟩
  · exact hs

/-- The modelled `continueFlying` tick preserves the stamina invariant for
any pre-state. -/
theorem continueFlying_staminaInv (P : FlightParams) (s : FlightState)
    (i : FlightInput) (hm : ∀ m, P.maxStamina = some m → 0 ≤ m)
    (hs : staminaInv P.maxStamina s.stamina) :
    staminaInv P.maxStamina (continueFlying P s i).stamina := by
  cases hmax : P.maxStamina with
  | none =>
    simp only [continueFlying, hmax]
    rfl
  | some m =>
    rw [hmax] at hs
    obtain ⟨q, hq, h0, h1⟩ := hs
    simp only [continueFlying, hmax, hq, reduceCtorEq, if_false]
    exact clampStamina_inv _ m (hm m hmax)
      (ite_addStamina_num _ _ _
        (ite_addStamina_num _ _ _
          (ite_addStamina_num _ _ _ ⟨q, rfl⟩)))

/-- One `processTamedFlight` tick either keeps the (possibly regenerated)
stamina or routes it through `continueFlying`. -/
theorem processTamedFlight_stamina_cases (P : FlightParams) (s : FlightState)
    (i : FlightInput) :
    (processTamedFlight P s i).1.stamina = (groundedRegen P s).stamina ∨
    ∃ s1 : FlightState,
      (processTamedFlight P s i).1.stamina = (continueFlying P s1 i).stamina ∧
      s1.stamina = (groundedRegen P s).stamina := by
  cases hr : i.riderPresentValid with
  | false =>
    left
    simp only [processTamedFlight, hr, Bool.not_false, if_true]
    exact tryEndFlightStep_stamina _
  | true =>
    cases hrd : i.isRiding with
    | false =>
      left
      simp only [processTamedFlight, hr, hrd, Bool.not_true, Bool.not_false,
        Bool.false_eq_true, if_false, if_true]
      exact tryEndFlightStep_stamina _
    | true =>
      cases hj : i.jumpPressed <;> cases hg : i.isOnGround <;>
        simp only [processTamedFlight, hr, hrd, hj, hg, Bool.not_true,
          Bool.true_eq_false, Bool.false_eq_true, or_self, if_false,
          if_true] <;>
        (repeat' split) <;>
        first
          | exact Or.inl rfl
          | exact Or.inr ⟨_, rfl, rfl⟩

/-- One `processTamedFlight` tick preserves the stamina invariant. -/
theorem processTamedFlight_staminaInv (P : FlightParams) (s : FlightState)
    (i : FlightInput) (hm : ∀ m, P.maxStamina = some m → 0 ≤ m)
    (hs : staminaInv P.maxStamina s.stamina) :
    staminaInv P.maxStamina (processTamedFlight P s i).1.stamina := by
  rcases processTamedFlight_stamina_cases P s i with h | ⟨s1, h, hs1⟩
  · rw [h]
    exact groundedRegen_staminaInv P s hm hs
  · rw [h]
    refine continueFlying_staminaInv P s1 i hm ?_
    rw [hs1]
    exact groundedRegen_staminaInv P s hm hs

/-- C4: across arbitrary sequences of flight and grounded ticks, the
persisted stamina stays in `[0, maxStamina]` whenever the milestone's
`maxStamina` is a (nonnegative) number, and is the `"infinite"` sentinel
whenever `maxStamina` is not a number. -/
theorem runFlight_staminaInv (P : FlightParams) (s : FlightState)
    (l : List FlightInput) (hm : ∀ m, P.maxStamina = some m → 0 ≤ m)
    (hs : staminaInv P.maxStamina s.stamina) :
    staminaInv P.maxStamina (runFlight P s l).stamina := by
  induction l generalizing s with
  | nil => exact hs
  | cons i t ih => exact ih _ (processTamedFlight_staminaInv P s i hm hs)

/-- Witness for C4: a concrete milestone with `maxStamina = 10`, initial
stamina 5, and a jump tick followed by a grounded tick. -/
theorem runFlight_staminaInv_witness :
    (∀ m : ℚ, some (10 : ℚ) = some m → 0 ≤ m) ∧
    staminaInv (some 10) (.num 5) ∧
    staminaInv (some 10)
      (runFlight ⟨some 10, 1, -1, -2, -1/2⟩ ⟨0, 0, 0, 0, false, .num 5⟩
        [⟨true, true, true, false, false⟩,
         ⟨true, true, false, true, false⟩]).stamina := by
  have hm : ∀ m : ℚ, some (10 : ℚ) = some m → 0 ≤ m := by
    intro m h
    rw [Option.some.injEq] at h
    subst h
    norm_num
  have hs : staminaInv (some (10 : ℚ)) (.num 5) :=
    ⟨5, rfl, by norm_num, by norm_num⟩
  exact ⟨hm, hs,
    runFlight_staminaInv ⟨some 10, 1, -1, -2, -1/2⟩
      ⟨0, 0, 0, 0, false, .num 5⟩
      [⟨true, true, true, false, false⟩, ⟨true, true, false, true, false⟩]
      hm hs⟩

/-- Entities in the hit list of the melee scan all had `applyDamage`
return true. -/
theorem mem_meleeScan_damage (dr : AttackerC) (r : Option EntityC)
    (l : List EntityC) (e' : EntityC) (h : e' ∈ meleeScan dr r l) :
    e'.damage = .applied := by
  induction l with
  | nil => simp [meleeScan] at h
  | cons e rest ih =>
    simp only [meleeScan] at h
    split_ifs at h
    case _ => exact ih h
    case _ => exact ih h
    case _ => exact ih h
    case _ => exact ih h
    case _ => exact ih h
    case _ => exact ih h
    case _ =>
      cases hd : e.damage <;> rw [hd] at h
      · rcases List.mem_cons.mp h with rfl | hm
        · exact hd
        · exact ih hm
      · exact ih h
      · exact ih h
    case _ => exact ih h

/-- A candidate whose `applyDamage` throws is transparent to the melee
scan: removing it leaves every other candidate's outcome unchanged. -/
theorem meleeScan_thrown_skip (dr : AttackerC) (r : Option EntityC)
    (l₁ l₂ : List EntityC) (e : EntityC) (he : e.damage = .thrown) :
    meleeScan dr r (l₁ ++ e :: l₂) = meleeScan dr r (l₁ ++ l₂) := by
  induction l₁ with
  | nil =>
    simp only [List.nil_append]
    simp only [meleeScan]
    split_ifs <;> first | rfl | rw [he]
  | cons a t ih =>
    simp only [List.cons_append, meleeScan]
    split_ifs <;>
      first
        | exact ih
        | (cases hd : a.damage <;>
            first
              | exact ih
              | exact congrArg (List.cons a) ih)

/-- C8: `dragonMeleeAttack` never propagates an exception: the per-candidate
catch drops a candidate whose `applyDamage` throws from the hit list while
the remaining candidates are processed exactly as if it were absent. -/
theorem dragonMeleeAttack_thrown_isolated (dragon : Option AttackerC)
    (r : Option EntityC) (l₁ l₂ : List EntityC) (e : EntityC)
    (he : e.damage = .thrown) :
    dragonMeleeAttack dragon r (l₁ ++ e :: l₂) =
      dragonMeleeAttack dragon r (l₁ ++ l₂) ∧
    e ∉ (dragonMeleeAttack dragon r (l₁ ++ e :: l₂)).hitEntities := by
  constructor
  · cases dragon with
    | none => rfl
    | some dr =>
      simp only [dragonMeleeAttack, meleeScan_thrown_skip dr r l₁ l₂ e he]
  · intro hmem
    cases dragon with
    | none => simp [dragonMeleeAttack] at hmem
    | some dr =>
      by_cases hv : dr.isValid = false
      · simp [dragonMeleeAttack, hv] at hmem
      · simp only [dragonMeleeAttack, hv, if_false] at hmem
        have hap := mem_meleeScan_damage dr r (l₁ ++ e :: l₂) e hmem
        rw [he] at hap
        exact absurd hap (by decide)

/-- Witness for C8: a thrown `applyDamage` on a concrete candidate in front
of the attacker leaves the result equal to the scan without it. -/
theorem dragonMeleeAttack_thrown_isolated_witness :
    (⟨5, "minecraft:cow", true, ⟨0, 0, 3⟩, .thrown⟩ : EntityC).damage =
      DamageOutcome.thrown ∧
    dragonMeleeAttack (some testDragon) none
        ([] ++ (⟨5, "minecraft:cow", true, ⟨0, 0, 3⟩, .thrown⟩ : EntityC) :: []) =
      dragonMeleeAttack (some testDragon) none ([] ++ []) :=
  ⟨rfl, (dragonMeleeAttack_thrown_isolated (some testDragon) none [] []
    ⟨5, "minecraft:cow", true, ⟨0, 0, 3⟩, .thrown⟩ rfl).1⟩

/-- C10: a missing or invalid attacker makes `dragonMeleeAttack` return
`success = false` with hit count 0 and an empty hit list, and `applyDamage`
is invoked on no entity. -/
theorem dragonMeleeAttack_invalid_attacker (dragon : Option AttackerC)
    (r : Option EntityC) (nearby : List EntityC)
    (h : dragon = none ∨ ∃ dr, dragon = some dr ∧ dr.isValid = false) :
    dragonMeleeAttack dragon r nearby = ⟨false, 0, []⟩ ∧
    dragonMeleeAttackDamageCalls dragon r nearby = [] := by
  rcases h with rfl | ⟨dr, rfl, hv⟩
  · exact ⟨rfl, rfl⟩
  · constructor <;>
      simp [dragonMeleeAttack, dragonMeleeAttackDamageCalls, hv]

/-- Witness for C10: a concrete invalid attacker. -/
theorem dragonMeleeAttack_invalid_attacker_witness :
    dragonMeleeAttack (some ⟨false, 9, ⟨0, 0, 0⟩, ⟨0, 0, 1⟩⟩) none
        [meleeTarget ⟨0, 0, 3⟩] = ⟨false, 0, []⟩ :=
  (dragonMeleeAttack_invalid_attacker
    (some ⟨false, 9, ⟨0, 0, 0⟩, ⟨0, 0, 1⟩⟩) none [meleeTarget ⟨0, 0, 3⟩]
    (Or.inr ⟨_, rfl, rfl⟩)).1

/-- Square roots of concrete squares. -/
theorem sqrt_eval (a b : ℝ) (hb : 0 ≤ b) (h : b ^ 2 = a) : Real.sqrt a = b := by
  rw [← h, Real.sqrt_sq hb]

/-- Distance to the target 3 units in front of the attacker. -/
theorem dist3_front : dist3 testDragon.location (meleeTarget ⟨0, 0, 3⟩).location = 3 := by
  have h : ((meleeTarget ⟨0, 0, 3⟩).location.x - testDragon.location.x) ^ 2 +
      ((meleeTarget ⟨0, 0, 3⟩).location.y - testDragon.location.y) ^ 2 +
      ((meleeTarget ⟨0, 0, 3⟩).location.z - testDragon.location.z) ^ 2 = 3 ^ 2 := by
    norm_num [testDragon, meleeTarget]
  unfold dist3
  rw [h, Real.sqrt_sq (by norm_num)]

/-- View/target alignment for the target directly in front. -/
theorem dot_front : meleeDot testDragon (meleeTarget ⟨0, 0, 3⟩) = 1 := by
  unfold meleeDot
  rw [dist3_front]
  norm_num [testDragon, meleeTarget]

/-- Distance to the target 3 units directly behind the attacker. -/
theorem dist3_behind :
    dist3 testDragon.location (meleeTarget ⟨0, 0, -3⟩).location = 3 := by
  have h : ((meleeTarget ⟨0, 0, -3⟩).location.x - testDragon.location.x) ^ 2 +
      ((meleeTarget ⟨0, 0, -3⟩).location.y - testDragon.location.y) ^ 2 +
      ((meleeTarget ⟨0, 0, -3⟩).location.z - testDragon.location.z) ^ 2 = 3 ^ 2 := by
    norm_num [testDragon, meleeTarget]
  unfold dist3
  rw [h, Real.sqrt_sq (by norm_num)]

/-- View/target alignment for the target directly behind. -/
theorem dot_behind : meleeDot testDragon (meleeTarget ⟨0, 0, -3⟩) = -1 := by
  unfold meleeDot
  rw [dist3_behind]
  norm_num [testDragon, meleeTarget]

/-- Distance to the point-blank target 0.3 units in front. -/
theorem dist3_close :
    dist3 testDragon.location (meleeTarget ⟨0, 0, 0.3⟩).location = 0.3 := by
  have h : ((meleeTarget ⟨0, 0, 0.3⟩).location.x - testDragon.location.x) ^ 2 +
      ((meleeTarget ⟨0, 0, 0.3⟩).location.y - testDragon.location.y) ^ 2 +
      ((meleeTarget ⟨0, 0, 0.3⟩).location.z - testDragon.location.z) ^ 2 =
        (0.3 : ℝ) ^ 2 := by
    norm_num [testDragon, meleeTarget]
  unfold dist3
  rw [h, Real.sqrt_sq (by norm_num)]

/-- Distance to the target 6 units in front. -/
theorem dist3_far :
    dist3 testDragon.location (meleeTarget ⟨0, 0, 6⟩).location = 6 := by
  have h : ((meleeTarget ⟨0, 0, 6⟩).location.x - testDragon.location.x) ^ 2 +
      ((meleeTarget ⟨0, 0, 6⟩).location.y - testDragon.location.y) ^ 2 +
      ((meleeTarget ⟨0, 0, 6⟩).location.z - testDragon.location.z) ^ 2 = 6 ^ 2 := by
    norm_num [testDragon, meleeTarget]
  unfold dist3
  rw [h, Real.sqrt_sq (by norm_num)]

/-- The melee scan hits the valid non-ally target 3 units in front. -/
theorem scan_front : meleeScan testDragon (some (testRider ⟨1, 0, 0⟩))
    [meleeTarget ⟨0, 0, 3⟩] = [meleeTarget ⟨0, 0, 3⟩] := by
  simp only [meleeScan]
  rw [dist3_front, dot_front]
  norm_num [testDragon, meleeTarget, testRider, Option.elim]
  simp

/-- The melee scan rejects the identical target 3 units behind. -/
theorem scan_behind : meleeScan testDragon (some (testRider ⟨1, 0, 0⟩))
    [meleeTarget ⟨0, 0, -3⟩] = [] := by
  simp only [meleeScan]
  rw [dist3_behind, dot_behind]
  norm_num [testDragon, meleeTarget, testRider, Option.elim]

/-- The melee scan rejects the point-blank target 0.3 units in front. -/
theorem scan_close : meleeScan testDragon (some (testRider ⟨1, 0, 0⟩))
    [meleeTarget ⟨0, 0, 0.3⟩] = [] := by
  simp only [meleeScan]
  rw [dist3_close]
  norm_num [testDragon, meleeTarget, testRider, Option.elim]

/-- The melee scan rejects the target 6 units in front. -/
theorem scan_far : meleeScan testDragon (some (testRider ⟨1, 0, 0⟩))
    [meleeTarget ⟨0, 0, 6⟩] = [] := by
  simp only [meleeScan]
  rw [dist3_far]
  norm_num [testDragon, meleeTarget, testRider, Option.elim]

/-- C5: with the attacker at the origin facing +Z, `dragonMeleeAttack` hits
a valid non-ally target at distance 3 directly in front; it does not hit an
identical target at distance 3 directly behind, nor one at distance 0.3 in
front, nor one at distance 6 in front; and the rider and dragon-type allies
are never hit, at any position. -/
theorem dragonMeleeAttack_cone_cases :
    dragonMeleeAttack (some testDragon) (some (testRider ⟨1, 0, 0⟩))
        [meleeTarget ⟨0, 0, 3⟩] = ⟨true, 1, [meleeTarget ⟨0, 0, 3⟩]⟩ ∧
    dragonMeleeAttack (some testDragon) (some (testRider ⟨1, 0, 0⟩))
        [meleeTarget ⟨0, 0, -3⟩] = ⟨true, 0, []⟩ ∧
    dragonMeleeAttack (some testDragon) (some (testRider ⟨1, 0, 0⟩))
        [meleeTarget ⟨0, 0, 0.3⟩] = ⟨true, 0, []⟩ ∧
    dragonMeleeAttack (some testDragon) (some (testRider ⟨1, 0, 0⟩))
        [meleeTarget ⟨0, 0, 6⟩] = ⟨true, 0, []⟩ ∧
    (∀ p : V3R, dragonMeleeAttack (some testDragon)
        (some (testRider ⟨1, 0, 0⟩)) [testRider p] = ⟨true, 0, []⟩) ∧
    (∀ p : V3R, dragonMeleeAttack (some testDragon)
        (some (testRider ⟨1, 0, 0⟩)) [allyDragonAt "re_dra:dragon" p] =
        ⟨true, 0, []⟩) ∧
    (∀ p : V3R, dragonMeleeAttack (some testDragon)
        (some (testRider ⟨1, 0, 0⟩)) [allyDragonAt "re_dra:dragon_baby" p] =
        ⟨true, 0, []⟩) := by
  have hv : (testDragon.isValid = false) = False := by simp [testDragon]
  refine ⟨?_, ?_, ?_, ?_, fun p => ?_, fun p => ?_, fun p => ?_⟩
  · simp [dragonMeleeAttack, hv, scan_front]
  · simp [dragonMeleeAttack, hv, scan_behind]
  · simp [dragonMeleeAttack, hv, scan_close]
  · simp [dragonMeleeAttack, hv, scan_far]
  · simp [dragonMeleeAttack, meleeScan, testDragon, testRider, Option.elim]
  · simp [dragonMeleeAttack, meleeScan, testDragon, testRider, allyDragonAt,
      Option.elim]
  · simp [dragonMeleeAttack, meleeScan, testDragon, testRider, allyDragonAt,
      Option.elim]

/-- The yaw angle in degrees always lies in `(-180, 180]`. -/
theorem calculateYawFromDirection_mem (x z : ℝ) :
    calculateYawFromDirection x z ∈ Set.Ioc (-180 : ℝ) 180 := by
  unfold calculateYawFromDirection
  have hπ : (0 : ℝ) < Real.pi := Real.pi_pos
  have hc : (0 : ℝ) < 180 / Real.pi := by positivity
  constructor
  · have h1 : -Real.pi < Complex.arg ⟨z, x⟩ := Complex.neg_pi_lt_arg _
    have h2 := mul_lt_mul_of_pos_right h1 hc
    have h3 : -Real.pi * (180 / Real.pi) = -180 := by
      field_simp
      try ring
    linarith
  · have h1 : Complex.arg ⟨z, x⟩ ≤ Real.pi := Complex.arg_le_pi _
    have h2 := mul_le_mul_of_nonneg_right h1 (le_of_lt hc)
    have h3 : Real.pi * (180 / Real.pi) = 180 := by
      field_simp
      try ring
    linarith

/-- Yaw of the facing vector `(x, z) = (0, -1)` is 180 degrees. -/
theorem calculateYawFromDirection_back : calculateYawFromDirection 0 (-1) = 180 := by
  unfold calculateYawFromDirection
  have h1 : (⟨-1, 0⟩ : ℂ) = -1 := by
    apply Complex.ext <;> simp
  rw [h1, Complex.arg_neg_one]
  have hπ : Real.pi ≠ 0 := ne_of_gt Real.pi_pos
  field_simp
  try ring

/-- Yaw of the facing vector `(x, z) = (0, 1)` is 0 degrees. -/
theorem calculateYawFromDirection_forward : calculateYawFromDirection 0 1 = 0 := by
  unfold calculateYawFromDirection
  have h1 : (⟨1, 0⟩ : ℂ) = 1 := by
    apply Complex.ext <;> simp
  rw [h1, Complex.arg_one, zero_mul]

/-- Counterexample to C6 as stated: turning from facing `(0, -1)`
(yaw 180°) to facing `(0, 1)` (yaw 0°) produces the raw delta −180, which
the code leaves unadjusted — outside the claimed interval `(-180, 180]` —
and classifies as `"right"`, whereas the claimed normalisation into
`(-180, 180]` yields +180 and hence `"left"`. -/
theorem detectYawRotation_boundary_counterexample :
    (detectYawRotation (some ⟨0, -1⟩) 0 1).2.yawDifference = -180 ∧
    (detectYawRotation (some ⟨0, -1⟩) 0 1).2.yawDifference ∉
      Set.Ioc (-180 : ℝ) 180 ∧
    (detectYawRotation (some ⟨0, -1⟩) 0 1).2.rotationDirection = "right" ∧
    specNormalizeDelta ((detectYawRotation (some ⟨0, -1⟩) 0 1).2.currentYaw -
      (detectYawRotation (some ⟨0, -1⟩) 0 1).2.previousYaw) = 180 := by
  have hd : (detectYawRotation (some ⟨0, -1⟩) 0 1).2.yawDifference = -180 := by
    simp only [detectYawRotation, Option.getD, calculateYawFromDirection_back,
      calculateYawFromDirection_forward]
    norm_num
  have hcur : (detectYawRotation (some ⟨0, -1⟩) 0 1).2.currentYaw = 0 := by
    simp only [detectYawRotation, Option.getD, calculateYawFromDirection_forward]
  have hprev : (detectYawRotation (some ⟨0, -1⟩) 0 1).2.previousYaw = 180 := by
    simp only [detectYawRotation, Option.getD, calculateYawFromDirection_back]
  refine ⟨hd, ?_, ?_, ?_⟩
  · rw [hd]
    simp [Set.mem_Ioc]
  · simp only [detectYawRotation, Option.getD, calculateYawFromDirection_back,
      calculateYawFromDirection_forward]
    norm_num
  · rw [hcur, hprev]
    unfold specNormalizeDelta
    norm_num

/-- C6 as amended: `detectYawRotation` computes current and previous yaw via
`atan2` in degrees, adjusts the raw delta by a single ±360 only on strict
overflow of ±180 — landing in the closed interval `[-180, 180]`, with a
delta of exactly −180 kept as is — classifies with the ±1 degree
thresholds, persists the current facing, and writes the classification to
the `re_dra:left_right` property. -/
theorem detectYawRotation_code_spec (st : Option RotState) (vx vz : ℝ) :
    (detectYawRotation st vx vz).1.previousViewX = vx ∧
    (detectYawRotation st vx vz).1.previousViewZ = vz ∧
    (detectYawRotation st vx vz).2.currentYaw =
      calculateYawFromDirection vx vz ∧
    (detectYawRotation st vx vz).2.previousYaw =
      calculateYawFromDirection (st.getD ⟨vx, vz⟩).previousViewX
        (st.getD ⟨vx, vz⟩).previousViewZ ∧
    (detectYawRotation st vx vz).2.yawDifference ∈ Set.Icc (-180 : ℝ) 180 ∧
    ((detectYawRotation st vx vz).2.yawDifference =
        (detectYawRotation st vx vz).2.currentYaw -
          (detectYawRotation st vx vz).2.previousYaw ∨
      (detectYawRotation st vx vz).2.yawDifference =
        (detectYawRotation st vx vz).2.currentYaw -
          (detectYawRotation st vx vz).2.previousYaw - 360 ∨
      (detectYawRotation st vx vz).2.yawDifference =
        (detectYawRotation st vx vz).2.currentYaw -
          (detectYawRotation st vx vz).2.previousYaw + 360) ∧
    (detectYawRotation st vx vz).2.rotationDirection =
      (if (detectYawRotation st vx vz).2.yawDifference > 1 then "left"
        else if (detectYawRotation st vx vz).2.yawDifference < -1 then "right"
        else "none") ∧
    (detectYawRotation st vx vz).2.propLeftRight =
      (detectYawRotation st vx vz).2.rotationDirection := by
  obtain ⟨hc1, hc2⟩ := calculateYawFromDirection_mem vx vz
  obtain ⟨hp1, hp2⟩ := calculateYawFromDirection_mem
    (st.getD ⟨vx, vz⟩).previousViewX (st.getD ⟨vx, vz⟩).previousViewZ
  refine ⟨rfl, rfl, rfl, rfl, ?_, ?_, rfl, rfl⟩
  · simp only [detectYawRotation]
    split_ifs with h1 h2 <;> constructor <;> linarith
  · simp only [detectYawRotation]
    split_ifs with h1 h2
    · right
      left
      rfl
    · right
      right
      rfl
    · left
      rfl

end DragonPack
